import Mathlib

/-!
Shallow embedding of `src/components/Custom/Profile.jsx` (Mindcare_Doctor):
a therapist profile panel that resolves a therapist id from a stored JWT,
fetches the profile record, mirrors it into form state, and supports an
image-only multipart update.  JavaScript values are modelled by `JsVal`,
with JS truthiness, property access (with optional chaining returning
`undefined` on non-objects) and the `||` operator made explicit.
-/

namespace MindcareProfile

/-- A JavaScript runtime value as used by the profile component: the
payloads are JSON-like (no arrays occur in any code path the component
inspects, so arrays are not modelled).  `undefined` is the result of reading
an absent property. -/
inductive JsVal where
  | undefined : JsVal
  | null : JsVal
  | bool : Bool → JsVal
  | num : Int → JsVal
  | str : String → JsVal
  | obj : List (String × JsVal) → JsVal

/-- JS truthiness: `undefined`, `null`, `false`, `0` and the empty string
are falsy; every other value (in particular every object) is truthy. -/
def truthy : JsVal → Bool
  | .undefined => false
  | .null => false
  | .bool b => b
  | .num n => n != 0
  | .str s => s != ""
  | .obj _ => true

/-- `typeof v === 'object'` in JS: true for objects and for `null`. -/
def typeofIsObject : JsVal → Bool
  | .null => true
  | .obj _ => true
  | _ => false

/-- Property access `v?.k` with optional chaining: field lookup on an
object (first binding wins, as in a JS object literal), `undefined` on
everything else. -/
def getField : JsVal → String → JsVal
  | .obj fields, k =>
      match fields.lookup k with
      | some v => v
      | none => .undefined
  | _, _ => .undefined

/-- The JS `||` operator: the left operand if truthy, else the right. -/
def jsOr (a b : JsVal) : JsVal := if truthy a then a else b

/-- `v` is a JS object proper (`typeof v === 'object' && v !== null`). -/
def isJsObject : JsVal → Bool
  | .obj _ => true
  | _ => false

/-- Field lookup on a JS object given as its field list (`undefined` when
the key is absent), the worker behind `getField`. -/
def lookupJs (fields : List (String × JsVal)) (k : String) : JsVal :=
  match fields.lookup k with
  | some v => v
  | none => .undefined

/-- The string conversion a JS template literal applies to an interpolated
value (`` `${v}` `` / `v.toString()`); on the string-valued fields the
component interpolates it is the identity. -/
def jsTemplate : JsVal → String
  | .undefined => "undefined"
  | .null => "null"
  | .bool b => if b then "true" else "false"
  | .num n => toString n
  | .str s => s
  | .obj _ => "[object Object]"

mutual

/-- JS strict equality `===` as used by `hasChanges`: value equality on
primitives; for objects the source compares references, which this model
renders as equality of the embedded terms (reference-equal JS objects are
one and the same term here). -/
def jsStrictEq : JsVal → JsVal → Bool
  | .undefined, .undefined => true
  | .null, .null => true
  | .bool a, .bool b => a == b
  | .num a, .num b => a == b
  | .str a, .str b => a == b
  | .obj a, .obj b => jsStrictEqFields a b
  | _, _ => false

/-- Pointwise strict equality of two field lists, the object case of
`jsStrictEq`. -/
def jsStrictEqFields : List (String × JsVal) → List (String × JsVal) → Bool
  | [], [] => true
  | (k1, v1) :: r1, (k2, v2) :: r2 =>
      k1 == k2 && jsStrictEq v1 v2 && jsStrictEqFields r1 r2
  | _, _ => false

end

/-- The axios instance base address (`api = axios.create({baseURL: ...})`,
Profile.jsx line 18). -/
def baseURL : String := "http://localhost:5000"

/-- `hasChanges(current, initial)` (Profile.jsx lines 22-34): walk the
keys of `current` and report a change as soon as some key's value differs
strictly from `initial`'s; the source's `image` branch performs the very
same `!==` comparison as the general branch and is kept as written. -/
def hasChanges (current initial : List (String × JsVal)) : Bool :=
  (current.map Prod.fst).any fun key =>
    if key = "image" then
      !(jsStrictEq (lookupJs current key) (lookupJs initial key))
    else
      !(jsStrictEq (lookupJs current key) (lookupJs initial key))

/-- Outcome of reading and decoding the stored credential token
(`localStorage.getItem('therapyToken')` followed by `jwtDecode`): absent
from storage, present but failing to decode, or decoded to a payload. -/
inductive TokenState where
  | missing : TokenState
  | decodeFails : TokenState
  | decoded : JsVal → TokenState

/-- The therapist-id resolver effect (Profile.jsx lines 43-58): a missing
token or a decode error falls back to the hardcoded id 35; a decoded
payload sets the id to its `therapist_id` claim when that claim is truthy
and otherwise sets nothing (`none` = the `useState(null)` initial state is
kept). -/
def resolveTherapistId : TokenState → Option JsVal
  | .missing => some (.num 35)
  | .decodeFails => some (.num 35)
  | .decoded payload =>
      let claim := getField payload "therapist_id"
      if truthy claim then some claim else none

/-- `enabled: !!therapistId` (Profile.jsx line 114): the profile query
runs only when the therapist-id state holds a truthy value; `none` is the
initial `null` state. -/
def queryEnabled : Option JsVal → Bool
  | none => false
  | some v => truthy v

/-- `s` contains `pat` as a substring (JS `String.prototype.includes`),
for a non-empty pattern. -/
def containsSubstr (s pat : String) : Bool := (s.splitOn pat).length != 1

/-- The HTML-body check of the profile loader (Profile.jsx line 96):
`typeof response.data === 'string' && response.data.includes('<!doctype html')`. -/
def isHtmlBody : JsVal → Bool
  | .str s => containsSubstr s "<!doctype html"
  | _ => false

/-- Payload normalization (Profile.jsx line 102 and line 178):
`response.data?.data || response.data` — unwrap a `{data: ...}` envelope
when its `data` field is truthy, else keep the body as is. -/
def normalizePayload (responseData : JsVal) : JsVal :=
  jsOr (getField responseData "data") responseData

/-- The profile loader `queryFn` (Profile.jsx lines 82-113) on a resolved
axios response, i.e. one whose status passed `validateStatus: status < 500`
(a status of 500 or above rejects the promise before this body runs, and
the `catch` block rethrows).  404 fails as not-found; a string body
containing `<!doctype html` fails as HTML; otherwise the normalized
payload is returned provided it is truthy and of `typeof 'object'`. -/
def queryFn (status : Nat) (responseData : JsVal) : Except String JsVal :=
  if status = 404 then .error "Therapist profile not found"
  else if isHtmlBody responseData then
    .error "Invalid response: Received HTML from server"
  else
    let therapistData := normalizePayload responseData
    if !truthy therapistData || !typeofIsObject therapistData then
      .error "Invalid response format from server"
    else
      .ok therapistData

/-- The editable defaults built from a loaded therapist record
(Profile.jsx lines 122-130): missing optional fields become the empty
string, `work_start_year` is stringified, the image field starts null. -/
def defaultValuesFrom (therapist : JsVal) : List (String × JsVal) :=
  [("full_name", jsOr (getField therapist "full_name") (.str "")),
   ("phone", jsOr (getField therapist "phone") (.str "")),
   ("email", jsOr (getField therapist "email") (.str "")),
   ("address", jsOr (getField therapist "address") (.str "")),
   ("nic_number", jsOr (getField therapist "nic_number") (.str "")),
   ("work_start_year",
     if truthy (getField therapist "work_start_year") then
       .str (jsTemplate (getField therapist "work_start_year"))
     else .str ""),
   ("image", .null)]

/-- The image preview derived on initial load (Profile.jsx line 133):
a truthy `image_path` is prefixed with the service base address,
otherwise the preview is null. -/
def initialPreview (therapist : JsVal) : Option String :=
  if truthy (getField therapist "image_path") then
    some (baseURL ++ "/" ++ jsTemplate (getField therapist "image_path"))
  else none

/-- The panel's mutable state as far as the claims reach: the shared
query-cache entry for the current therapist id, the image preview, the
form snapshot (`initialValues`) and the current form field values
(`form.getValues()`). -/
structure PanelState where
  cache : Option JsVal
  imagePreview : Option String
  initialValues : List (String × JsVal)
  formValues : List (String × JsVal)

/-- The form-population effect (Profile.jsx lines 119-135): on a loaded
record, `form.reset(defaultValues)`, `setInitialValues(defaultValues)` and
`setImagePreview(...)`. -/
def populateForm (therapist : JsVal) (st : PanelState) : PanelState :=
  let dv := defaultValuesFrom therapist
  { st with formValues := dv, initialValues := dv,
            imagePreview := initialPreview therapist }

/-- `updateTherapist.onSuccess` (Profile.jsx lines 177-190): normalize the
response body, write it into the cache entry for the current id, switch
the preview to the returned `image_path` (bare, no base-address prefix)
when truthy, reset the snapshot to the current form values, and emit the
success toast (`data.message || 'Profile updated successfully'`); the
trailing `invalidateQueries` only schedules a background refetch and is
not modelled. -/
def onSuccess (data : JsVal) (st : PanelState) : PanelState × JsVal :=
  let updatedTherapist := normalizePayload data
  let st1 := { st with cache := some updatedTherapist }
  let st2 :=
    if truthy (getField updatedTherapist "image_path") then
      { st1 with imagePreview := some (jsTemplate (getField updatedTherapist "image_path")) }
    else st1
  ({ st2 with initialValues := st2.formValues },
   jsOr (getField data "message") (.str "Profile updated successfully"))

/-- The error object reaching `updateTherapist.onError`:
`error.response?.data?.error` (`undefined` when any link is absent) and
`error.message`. -/
structure UpdateError where
  responseDataError : JsVal
  message : JsVal

/-- `updateTherapist.onError` (Profile.jsx lines 191-197): emit an error
toast with the most specific message available and touch nothing else —
the returned state is the incoming state. -/
def onError (err : UpdateError) (st : PanelState) : PanelState × JsVal :=
  (st, jsOr err.responseDataError (jsOr err.message (.str "Failed to update profile")))

/-- The authenticated multipart request `mutationFn` would send
(Profile.jsx lines 164-170). -/
structure UpdateRequest where
  url : String
  formFields : List (String × JsVal)
  authHeader : String

/-- The field names appended to the `FormData`, in source order
(Profile.jsx lines 155-161). -/
def formDataFields : List String :=
  ["full_name", "phone", "email", "address", "nic_number", "work_start_year", "image"]

/-- Build the multipart body: each field is appended only when truthy
(`if (data.x) formData.append(...)`). -/
def buildFormData (data : JsVal) : List (String × JsVal) :=
  formDataFields.filterMap fun k =>
    if truthy (getField data k) then some (k, getField data k) else none

/-- `updateTherapist.mutationFn` (Profile.jsx lines 148-175) up to the
point the request leaves: a missing (or empty, hence falsy) stored token
throws `Authentication token missing` — producing no request at all —
otherwise the multipart `PUT` request is assembled with a bearer header. -/
def mutationFn (storedToken : Option String) (therapistId : JsVal)
    (data : JsVal) : Except String UpdateRequest :=
  match storedToken with
  | none => .error "Authentication token missing"
  | some t =>
      if t = "" then .error "Authentication token missing"
      else
        .ok { url := "/api/therapists/" ++ jsTemplate therapistId,
              formFields := buildFormData data,
              authHeader := "Bearer " ++ t }

/-- An in-memory file as the image handler inspects it: byte size and
MIME type. -/
structure JsFile where
  size : Nat
  mimeType : String
deriving DecidableEq, Repr

/-- The accepted MIME types (Profile.jsx line 217). -/
def allowedImageTypes : List String :=
  ["image/png", "image/jpg", "image/jpeg", "image/gif"]

/-- The slice of state `handleImageChange` touches: the form's pending
image field value and the preview. -/
structure ImageState where
  fieldValue : Option JsFile
  preview : Option String
deriving DecidableEq, Repr

/-- `handleImageChange` (Profile.jsx lines 210-230).  A selected file is
rejected — error toast, no state change — when larger than 5 MiB or of a
MIME type outside the accepted set; an accepted file becomes the pending
field value with an object-URL preview (`URL.createObjectURL` is opaque
browser state, passed in as `createUrl`); de-selection clears the field
and reverts the preview to the server-provided path, prefixed with the
base address.  The second component is the toast message, if any. -/
def handleImageChange (createUrl : JsFile → String) (therapist : JsVal)
    (file : Option JsFile) (st : ImageState) : ImageState × Option String :=
  match file with
  | some f =>
      if f.size > 5 * 1024 * 1024 then
        (st, some "Image size must be less than 5MB")
      else if !(allowedImageTypes.contains f.mimeType) then
        (st, some "Only PNG, JPG, JPEG, and GIF images are allowed")
      else
        ({ fieldValue := some f, preview := some (createUrl f) }, none)
  | none =>
      ({ fieldValue := none,
         preview :=
           if truthy (getField therapist "image_path") then
             some (baseURL ++ "/" ++ jsTemplate (getField therapist "image_path"))
           else none }, none)

/-- The required-rule message of the work-start-year field. -/
def requiredYearMsg : String := "Work start year is required"

/-- The pattern-rule message of the work-start-year field. -/
def patternYearMsg : String := "Enter a valid 4-digit year"

/-- The validate-rule message of the work-start-year field. -/
def futureYearMsg : String := "Work start year cannot be in the future"

/-- The four-digit regex of the work-start-year pattern rule: the value
is exactly four decimal digits. -/
def matchesFourDigitPattern (s : String) : Bool :=
  s.length == 4 && s.toList.all Char.isDigit

/-- `parseInt` on the all-digit strings the validate rule is reached
with (the pattern rule has already passed): the decimal value of the
digit sequence. -/
def parseIntDigits (s : String) : Int :=
  (s.toList.foldl (fun n c => n * 10 + (c.toNat - 48)) 0 : Nat)

/-- The work-start-year field rules (Profile.jsx lines 478-482), applied
in react-hook-form's first-error order: `required`, then the four-digit
`pattern`, then `validate: parseInt(value) <= new Date().getFullYear()`;
`none` means the value passes. -/
def validateWorkStartYear (currentYear : Int) (value : String) : Option String :=
  if value = "" then some requiredYearMsg
  else if !matchesFourDigitPattern value then some patternYearMsg
  else if parseIntDigits value ≤ currentYear then none
  else some futureYearMsg

/-- An empty panel state, used to instantiate theorems at concrete
inputs. -/
def emptyState : PanelState :=
  { cache := none, imagePreview := none, initialValues := [], formValues := [] }

/-- Claim C1, counterexample: `normalize(P) = P` fails for the object
payload `P = {data: {full_name: "inner"}}` — the loader unwraps the truthy
`data` field of a bare payload as well, so `normalize(P)` is the inner
object, not `P`. -/
theorem C1_normalize_counterexample :
    normalizePayload (JsVal.obj [("data", JsVal.obj [("full_name", JsVal.str "inner")])]) ≠
      JsVal.obj [("data", JsVal.obj [("full_name", JsVal.str "inner")])] := by
  simp [normalizePayload, getField, jsOr, truthy, List.lookup]

/-- Claim C1, amended: for every object payload `P` *whose own `data`
field is not truthy*, the loader's normalization is the same whether the
payload arrives wrapped as `{data: P}` or bare as `P`, and yields `P`
itself in both cases. -/
theorem C1_normalize_unwrap (P : JsVal) (hobj : isJsObject P = true)
    (hdata : truthy (getField P "data") = false) :
    normalizePayload (JsVal.obj [("data", P)]) = P ∧ normalizePayload P = P := by
  cases P with
  | obj fields =>
      refine ⟨?_, ?_⟩
      · simp [normalizePayload, getField, jsOr, truthy, List.lookup]
      · simp [normalizePayload, jsOr, hdata]
  | undefined => simp [isJsObject] at hobj
  | null => simp [isJsObject] at hobj
  | bool b => simp [isJsObject] at hobj
  | num n => simp [isJsObject] at hobj
  | str s => simp [isJsObject] at hobj

/-- Claim C1, witness: the amended statement evaluated on the payload
`{full_name: "A"}`. -/
theorem C1_normalize_unwrap_witness :
    normalizePayload (JsVal.obj [("data", JsVal.obj [("full_name", JsVal.str "A")])]) =
        JsVal.obj [("full_name", JsVal.str "A")] ∧
      normalizePayload (JsVal.obj [("full_name", JsVal.str "A")]) =
        JsVal.obj [("full_name", JsVal.str "A")] :=
  C1_normalize_unwrap (JsVal.obj [("full_name", JsVal.str "A")]) (by rfl) (by rfl)

/-- Claim C3: a stored token decoding to a payload with a truthy
`therapist_id` claim resolves the therapist id to that claim's value,
while a missing token and a token whose decoding throws both resolve to
the hardcoded fallback id 35. -/
theorem C3_resolveTherapistId (payload v : JsVal)
    (hclaim : getField payload "therapist_id" = v) (hv : truthy v = true) :
    resolveTherapistId (.decoded payload) = some v ∧
      resolveTherapistId .missing = some (.num 35) ∧
      resolveTherapistId .decodeFails = some (.num 35) := by
  refine ⟨?_, rfl, rfl⟩
  simp [resolveTherapistId, hclaim, hv]

/-- Claim C3, witness: the resolver evaluated on the payload
`{therapist_id: 7}`, on a missing token, and on a failing decode. -/
theorem C3_resolveTherapistId_witness :
    resolveTherapistId (.decoded (JsVal.obj [("therapist_id", JsVal.num 7)])) =
        some (JsVal.num 7) ∧
      resolveTherapistId .missing = some (.num 35) ∧
      resolveTherapistId .decodeFails = some (.num 35) :=
  C3_resolveTherapistId (JsVal.obj [("therapist_id", JsVal.num 7)]) (JsVal.num 7)
    (by rfl) (by rfl)

/-- Claim C10: a token that decodes to a payload lacking the
`therapist_id` claim sets no identifier at all — the fallback 35 is not
used, the id state stays at its initial `null` — and with a null id the
profile query stays disabled, so no fetch is issued. -/
theorem C10_missing_claim_no_fetch (payload : JsVal)
    (h : getField payload "therapist_id" = JsVal.undefined) :
    resolveTherapistId (.decoded payload) = none ∧
      queryEnabled (resolveTherapistId (.decoded payload)) = false := by
  have hres : resolveTherapistId (.decoded payload) = none := by
    simp [resolveTherapistId, h, truthy]
  exact ⟨hres, by rw [hres]; rfl⟩

/-- Claim C10, witness: the resolver and query gate evaluated on the
empty payload. -/
theorem C10_missing_claim_no_fetch_witness :
    resolveTherapistId (.decoded (JsVal.obj [])) = none ∧
      queryEnabled (resolveTherapistId (.decoded (JsVal.obj []))) = false :=
  C10_missing_claim_no_fetch (JsVal.obj []) (by rfl)

/-- Claim C4: a read response whose body is a string — an HTML document
in particular — never yields a parsed record; whenever the status is not
the 404 not-found case it fails with one of the two invalid-response
errors (the dedicated HTML error when the body contains the lowercase
doctype marker, the generic format error otherwise). -/
theorem C4_string_body_invalid (status : Nat) (s : String) :
    (∀ r, queryFn status (JsVal.str s) ≠ .ok r) ∧
      (status ≠ 404 →
        queryFn status (JsVal.str s) =
            .error "Invalid response: Received HTML from server" ∨
          queryFn status (JsVal.str s) =
            .error "Invalid response format from server") := by
  unfold queryFn
  by_cases h4 : status = 404
  · simp [h4]
  · by_cases hh : isHtmlBody (JsVal.str s) = true
    · simp [h4, hh]
    · simp [h4, hh, normalizePayload, getField, jsOr, truthy, typeofIsObject]

/-- Claim C4, witness: the loader evaluated on a successful status and an
HTML document body. -/
theorem C4_string_body_invalid_witness :
    queryFn 200 (JsVal.str "<!doctype html><html></html>") =
        .error "Invalid response: Received HTML from server" ∨
      queryFn 200 (JsVal.str "<!doctype html><html></html>") =
        .error "Invalid response format from server" :=
  (C4_string_body_invalid 200 "<!doctype html><html></html>").2 (by decide)

/-- Claim C2, counterexample: for the bare response body
`R = {data: {nic_number: "Y"}, nic_number: "X"}` the success handler does
not cache `R` — it unwraps `R`'s own truthy `data` field and caches the
inner object instead. -/
theorem C2_bare_data_key_counterexample :
    (onSuccess (JsVal.obj [("data", JsVal.obj [("nic_number", JsVal.str "Y")]),
        ("nic_number", JsVal.str "X")]) emptyState).1.cache ≠
      some (JsVal.obj [("data", JsVal.obj [("nic_number", JsVal.str "Y")]),
        ("nic_number", JsVal.str "X")]) := by
  simp [onSuccess, normalizePayload, getField, jsOr, truthy, emptyState, List.lookup]

/-- Claim C2, amended: a successful update whose body is `{data: R}` for
an object `R` — or bare `R` provided `R`'s own `data` field is not truthy
— caches `R` under the current identifier and resets the form snapshot
(`initialValues`) to the form's current field values; a bare body with a
truthy `data` field instead caches that field's value. -/
theorem C2_onSuccess_cache_and_snapshot (R : JsVal) (st : PanelState)
    (hobj : isJsObject R = true) :
    ((onSuccess (JsVal.obj [("data", R)]) st).1.cache = some R ∧
      (onSuccess (JsVal.obj [("data", R)]) st).1.initialValues = st.formValues) ∧
    (truthy (getField R "data") = false →
      (onSuccess R st).1.cache = some R ∧
        (onSuccess R st).1.initialValues = st.formValues) := by
  have hR : truthy R = true := by
    cases R <;> simp_all [isJsObject, truthy]
  have hwrap : normalizePayload (JsVal.obj [("data", R)]) = R := by
    simp [normalizePayload, getField, jsOr, hR, List.lookup]
  constructor
  · constructor
    · simp only [onSuccess, hwrap]
      split <;> rfl
    · simp only [onSuccess, hwrap]
      split <;> rfl
  · intro hdata
    have hbare : normalizePayload R = R := by
      simp [normalizePayload, jsOr, hdata]
    constructor
    · simp only [onSuccess, hbare]
      split <;> rfl
    · simp only [onSuccess, hbare]
      split <;> rfl

/-- Claim C2, witness: the amended statement evaluated on the wrapped
body `{data: {nic_number: "X"}}` and the empty panel state. -/
theorem C2_onSuccess_cache_and_snapshot_witness :
    (onSuccess (JsVal.obj [("data", JsVal.obj [("nic_number", JsVal.str "X")])])
        emptyState).1.cache = some (JsVal.obj [("nic_number", JsVal.str "X")]) :=
  ((C2_onSuccess_cache_and_snapshot (JsVal.obj [("nic_number", JsVal.str "X")])
    emptyState (by rfl)).1).1

/-- Claim C5: for one and the same non-empty string path `p`, the preview
set while populating the form from a read response is the base address
followed by a slash and `p`, while the preview set by the update success
handler is `p` bare, unprefixed. -/
theorem C5_preview_asymmetry (therapist body : JsVal) (stLoad stUpd : PanelState)
    (p : String)
    (hload : getField therapist "image_path" = JsVal.str p)
    (hupd : getField (normalizePayload body) "image_path" = JsVal.str p)
    (hp : p ≠ "") :
    (populateForm therapist stLoad).imagePreview = some (baseURL ++ "/" ++ p) ∧
      (onSuccess body stUpd).1.imagePreview = some p := by
  have hptruthy : truthy (JsVal.str p) = true := by
    simp [truthy, hp]
  constructor
  · simp [populateForm, initialPreview, hload, hptruthy, jsTemplate]
  · simp [onSuccess, hupd, hptruthy, jsTemplate]

/-- Claim C5, witness: both previews evaluated on the record
`{image_path: "uploads/x.png"}` (read response and update response). -/
theorem C5_preview_asymmetry_witness :
    (populateForm (JsVal.obj [("image_path", JsVal.str "uploads/x.png")])
        emptyState).imagePreview = some (baseURL ++ "/" ++ "uploads/x.png") ∧
      (onSuccess (JsVal.obj [("image_path", JsVal.str "uploads/x.png")])
        emptyState).1.imagePreview = some "uploads/x.png" :=
  C5_preview_asymmetry (JsVal.obj [("image_path", JsVal.str "uploads/x.png")])
    (JsVal.obj [("image_path", JsVal.str "uploads/x.png")]) emptyState emptyState
    "uploads/x.png" (by rfl) (by rfl) (by decide)

/-- Claim C6: the image handler rejects a selected file — emitting an
error toast and leaving the field value and preview untouched — exactly
when the file exceeds 5 MiB or its MIME type is outside the accepted set;
in particular a 5 MiB `image/gif` file is accepted, a file one byte
larger is rejected, and an `image/webp` file is rejected. -/
theorem C6_handleImageChange_guard (createUrl : JsFile → String) (therapist : JsVal)
    (st : ImageState) (f : JsFile) :
    ((handleImageChange createUrl therapist (some f) st).2.isSome = true ↔
        (f.size > 5 * 1024 * 1024 ∨ allowedImageTypes.contains f.mimeType = false)) ∧
      ((f.size > 5 * 1024 * 1024 ∨ allowedImageTypes.contains f.mimeType = false) →
        (handleImageChange createUrl therapist (some f) st).1 = st) ∧
      (handleImageChange createUrl therapist
          (some ⟨5 * 1024 * 1024, "image/gif"⟩) st).2 = none ∧
      (handleImageChange createUrl therapist
          (some ⟨5 * 1024 * 1024, "image/gif"⟩) st).1.fieldValue =
        some ⟨5 * 1024 * 1024, "image/gif"⟩ ∧
      (handleImageChange createUrl therapist
          (some ⟨5 * 1024 * 1024 + 1, "image/gif"⟩) st).2.isSome = true ∧
      (handleImageChange createUrl therapist
          (some ⟨5 * 1024 * 1024 + 1, "image/gif"⟩) st).1 = st ∧
      (handleImageChange createUrl therapist
          (some ⟨1024, "image/webp"⟩) st).2.isSome = true ∧
      (handleImageChange createUrl therapist
          (some ⟨1024, "image/webp"⟩) st).1 = st := by
  refine ⟨?_, ?_, ?_, ?_, ?_, ?_, ?_, ?_⟩
  · by_cases hsize : f.size > 5 * 1024 * 1024
    · simp [handleImageChange, hsize]
    · by_cases hmem : f.mimeType ∈ allowedImageTypes
      · simp [handleImageChange, hsize, hmem]
      · simp [handleImageChange, hsize, hmem]
  · intro h
    by_cases hsize : f.size > 5 * 1024 * 1024
    · simp [handleImageChange, hsize]
    · rcases h with h | h
      · exact absurd h hsize
      · have hmem : f.mimeType ∉ allowedImageTypes := by simpa using h
        simp [handleImageChange, hsize, hmem]
  · simp [handleImageChange, allowedImageTypes]
  · simp [handleImageChange, allowedImageTypes]
  · simp [handleImageChange]
  · simp [handleImageChange]
  · simp [handleImageChange, allowedImageTypes]
  · simp [handleImageChange, allowedImageTypes]

/-- Claim C6, witness: the guard applied to a 6 MiB file against the
empty image state, discharging the rejection hypothesis. -/
theorem C6_handleImageChange_guard_witness :
    (handleImageChange (fun _ => "blob:preview") (JsVal.obj [])
        (some ⟨6 * 1024 * 1024, "image/png"⟩) ⟨none, none⟩).1 = ⟨none, none⟩ :=
  (C6_handleImageChange_guard (fun _ => "blob:preview") (JsVal.obj [])
    ⟨none, none⟩ ⟨6 * 1024 * 1024, "image/png"⟩).2.1 (Or.inl (by decide))

/-- Claim C7: with current year 2025, the work-start-year rules fail
"2031" with the future-year message, fail "abcd" with the 4-digit
pattern message, and pass "1999"; in general a value passes exactly when
it is non-empty, is exactly four digits, and its integer value does not
exceed the current year. -/
theorem C7_work_start_year_rules :
    validateWorkStartYear 2025 "2031" = some futureYearMsg ∧
      validateWorkStartYear 2025 "abcd" = some patternYearMsg ∧
      validateWorkStartYear 2025 "1999" = none ∧
      ∀ (currentYear : Int) (value : String),
        validateWorkStartYear currentYear value = none ↔
          (value ≠ "" ∧ matchesFourDigitPattern value = true ∧
            parseIntDigits value ≤ currentYear) := by
  refine ⟨by decide, by decide, by decide, ?_⟩
  intro currentYear value
  unfold validateWorkStartYear
  by_cases h1 : value = ""
  · simp [h1]
  · by_cases h2 : matchesFourDigitPattern value
    · by_cases h3 : parseIntDigits value ≤ currentYear
      · simp [h1, h2, h3]
      · simp [h1, h2, h3]
    · simp [h1, h2]

/-- Claim C7, witness: the rules evaluated on the passing year "1999"
with current year 2025. -/
theorem C7_work_start_year_rules_witness :
    validateWorkStartYear 2025 "1999" = none :=
  C7_work_start_year_rules.2.2.1

/-- Claim C8: with no stored credential token the updater fails with the
authentication error — no request value is ever produced — and the error
handler of a failed submission only emits a toast: the panel state it
returns, the form field values and the snapshot included, is exactly the
incoming one. -/
theorem C8_update_failure_paths :
    (∀ (therapistId data : JsVal),
        mutationFn none therapistId data = .error "Authentication token missing") ∧
      ∀ (err : UpdateError) (st : PanelState),
        (onError err st).1 = st ∧
          (onError err st).1.formValues = st.formValues ∧
          (onError err st).1.initialValues = st.initialValues :=
  ⟨fun _ _ => rfl, fun _ _ => ⟨rfl, rfl, rfl⟩⟩

/-- Claim C8, witness: the missing-token failure evaluated at the
fallback identifier and an empty update, and the error handler evaluated
on the empty state. -/
theorem C8_update_failure_paths_witness :
    mutationFn none (JsVal.num 35) (JsVal.obj []) =
        .error "Authentication token missing" ∧
      (onError ⟨JsVal.undefined, JsVal.str "Network Error"⟩ emptyState).1 = emptyState :=
  ⟨C8_update_failure_paths.1 (JsVal.num 35) (JsVal.obj []),
    (C8_update_failure_paths.2 ⟨JsVal.undefined, JsVal.str "Network Error"⟩ emptyState).1⟩

/-- Claim C9: when every field of `current` is strictly equal to the
corresponding field of `initial` (the image field comparing by object
identity, i.e. equal embedded terms), `hasChanges` returns `false`; in
particular an email field holding the same string as the snapshot is not
a change. -/
theorem C9_hasChanges_equal_fields (current initial : List (String × JsVal))
    (h : ∀ k ∈ current.map Prod.fst,
        jsStrictEq (lookupJs current k) (lookupJs initial k) = true) :
    hasChanges current initial = false ∧
      hasChanges [("email", JsVal.str "a@b.com")] [("email", JsVal.str "a@b.com")] = false := by
  constructor
  · unfold hasChanges
    simp only [ite_self]
    rw [← Bool.not_eq_true, List.any_eq_true]
    rintro ⟨k, hk, hfalse⟩
    rw [h k hk] at hfalse
    simp at hfalse
  · simp [hasChanges, jsStrictEq, lookupJs, List.lookup]

/-- Claim C9, witness: `hasChanges` evaluated on the identical
single-field email maps, discharging the pointwise-equality hypothesis. -/
theorem C9_hasChanges_equal_fields_witness :
    hasChanges [("email", JsVal.str "a@b.com")] [("email", JsVal.str "a@b.com")] = false :=
  (C9_hasChanges_equal_fields [("email", JsVal.str "a@b.com")]
    [("email", JsVal.str "a@b.com")]
    (by intro k hk; simp at hk; subst hk; simp [lookupJs, jsStrictEq, List.lookup])).1

end MindcareProfile
